import Mathlib

/-!
Shallow embedding of the scanner/thumbnail/navigation core of
`src/src/view.rs` (an image-viewer application built on druid).

Modelling conventions:
* `f64` arithmetic in `create_thumbnail` is modelled as exact rational
  arithmetic over `ℚ`; Rust's `.trunc() as u32` on a non-negative value is
  `Int.floor` followed by `Int.toNat`.
* Filesystem results are passed in as data: a directory listing is a list of
  entries, each fallible operation's outcome is an `Except`/constructor field.
* A Rust panic (`.unwrap()` on an `Err`) is modelled by an aborted run: loops
  return an extra `Bool` flag (`true` = ran to completion, `false` = panicked)
  or an `Option` (`none` = panicked).
* druid's `ExtEventSink::submit_command` (external to this repository) is
  modelled from the spec: it fails exactly when the presentation context has
  terminated.
-/

/-- The outcome of trying to open / format-sniff / decode one file
(`Reader::open`, `with_guessed_format`, `decode` in `read_directory`,
view.rs lines 152-171).  A successful decode carries the RGB buffer's
dimensions. -/
inductive DecodeOutcome where
  | openErr : String → DecodeOutcome
  | formatErr : String → DecodeOutcome
  | decodeErr : String → DecodeOutcome
  | ok : Nat → Nat → DecodeOutcome
deriving DecidableEq, Repr

/-- One entry yielded by `fs::read_dir` inside `read_directory`:
its path, whether `file.path().is_file()` holds, and what happens if the
scanner tries to decode it. -/
structure FileEntry where
  path : String
  isFile : Bool
  outcome : DecodeOutcome
deriving DecidableEq, Repr

/-- `Thumbnail { index, image }` from `crate::data`, with the `ImageBuf`
abstracted to its pixel dimensions (`image::imageops::thumbnail` returns a
buffer of exactly the requested dimensions, which `ImageBuf::from_raw`
preserves). -/
structure Thumbnail where
  index : Nat
  width : Nat
  height : Nat
deriving DecidableEq, Repr

/-- `ImageFolder` from `crate::data`, as assembled in `main_view`
(view.rs lines 120-125): parallel `paths`/`thumbnails` arrays plus the
directory's display name. -/
structure ImageFolder where
  paths : List String
  thumbnails : List Thumbnail
  name : String
  selected : Option Nat
deriving DecidableEq, Repr

/-- `create_thumbnail` (view.rs lines 179-197).  `max_height = 150.0`,
`scale = max_height / height`, the scaled width and height are truncated
(`f64::trunc`) and cast to `u32`.  The `f64` arithmetic is modelled exactly
over `ℚ`; truncation of a non-negative rational is `Int.floor`, and the
`as u32` cast of the non-negative result is `Int.toNat`. -/
def create_thumbnail (index : Nat) (width height : Nat) : Thumbnail :=
  let max_height : ℚ := 150
  let scale : ℚ := max_height / (height : ℚ)
  let scaled_width : ℚ := (width : ℚ) * scale
  let scaled_height : ℚ := (height : ℚ) * scale
  { index := index
    width := (⌊scaled_width⌋).toNat
    height := (⌊scaled_height⌋).toNat }

/-- The `for file in entries` loop of `read_directory` (view.rs lines
149-175), with the two accumulating vectors (`images`, `paths`) made
explicit.  Each yielded entry is itself a `Result` (`file.unwrap()` on
line 150); an `Err` entry makes the whole call panic (`none`).  A file whose
open, format sniff, or decode fails hits a `continue`; a successful decode
pushes `create_thumbnail(images.len(), image)` and then the file's path. -/
def readDirLoop :
    List (Except String FileEntry) → List Thumbnail → List String →
    Option (List Thumbnail × List String)
  | [], images, paths => some (images, paths)
  | .error _ :: _, _, _ => none
  | .ok file :: rest, images, paths =>
    if file.isFile then
      match file.outcome with
      | .openErr _ => readDirLoop rest images paths
      | .formatErr _ => readDirLoop rest images paths
      | .decodeErr _ => readDirLoop rest images paths
      | .ok w h =>
        readDirLoop rest (images ++ [create_thumbnail images.length w h])
          (paths ++ [file.path])
    else
      readDirLoop rest images paths

/-- A directory reached by the walk: its path and the result of
`fs::read_dir` on it at visit time (line 148), the listing being a sequence
of fallible entries. -/
structure DirSnapshot where
  path : String
  readDirResult : Except String (List (Except String FileEntry))
deriving Repr

/-- `read_directory` (view.rs lines 143-177).  `fs::read_dir(...).unwrap()`
on line 148 panics (`none`) when the directory cannot be read at this
point; otherwise the entry loop runs. -/
def read_directory (dir : DirSnapshot) :
    Option (List Thumbnail × List String) :=
  match dir.readDirResult with
  | .error _ => none
  | .ok entries => readDirLoop entries [] []

/-- The `filter_entry` closure of the walk (view.rs lines 102-115): keep an
entry iff it is a directory whose `read_dir` succeeds and yields at least
one entry (`dir.next().is_some()`).  `readDirFirst` is the result of that
probing `read_dir`, abstracted to whether a first entry exists. -/
def filter_entry (isDir : Bool) (readDirFirst : Except String Bool) : Bool :=
  if isDir then
    match readDirFirst with
    | .ok hasEntry => hasEntry
    | .error _ => false
  else
    false

/-- Modelled from the spec: druid's `ExtEventSink::submit_command` (external
to this repository) — "if the presentation context has terminated,
submission is a no-op failure"; it returns `Ok` exactly while the
presentation context is alive. -/
def submit_command (alive : Bool) (_folder : ImageFolder) :
    Except String Unit :=
  if alive then .ok () else .error "presentation context terminated"

/-- The `for entry in walk` loop of the scanner worker (view.rs lines
116-134).  `delivered` accumulates the folders whose submission succeeded;
the returned flag is `true` iff the loop ran to completion without a panic.
Panics modelled: `entry.unwrap()` (line 117) on a walk error, the unwraps
inside `read_directory`, and `.unwrap()` on `submit_command` (line 132). -/
def workerLoop (alive : Bool) :
    List (Except String DirSnapshot) → List ImageFolder →
    List ImageFolder × Bool
  | [], delivered => (delivered, true)
  | .error _ :: _, delivered => (delivered, false)
  | .ok entry :: rest, delivered =>
    match read_directory entry with
    | none => (delivered, false)
    | some (thumbnails, paths) =>
      if thumbnails.isEmpty then
        workerLoop alive rest delivered
      else
        let image_folder : ImageFolder :=
          { paths := paths, thumbnails := thumbnails,
            name := entry.path, selected := none }
        match submit_command alive image_folder with
        | .error _ => (delivered, false)
        | .ok _ => workerLoop alive rest (delivered ++ [image_folder])

/-- `FolderGalleryState` from `crate::data` (struct definition not under
`src/`).  Modelled from the spec: `{ name, paths, selected_image }`, the
fields the view.rs handlers read and write. -/
structure FolderGalleryState where
  name : String
  paths : List String
  selected_image : Nat
deriving DecidableEq, Repr

/-- The left-arrow `on_click` closure of `image_view_builder` (view.rs lines
324-332): return unchanged if `paths` is empty or the selection is already
0, otherwise decrement `selected_image`. -/
def left_button_on_click (data : FolderGalleryState) : FolderGalleryState :=
  if data.paths.isEmpty || data.selected_image == 0 then
    data
  else
    { data with selected_image := data.selected_image - 1 }

/-- The right-arrow `on_click` closure of `image_view_builder` (view.rs
lines 343-351): return unchanged if `paths` is empty or the selection is at
`paths.len() - 1`, otherwise increment `selected_image`.  Rust's `||`
short-circuits, so `paths.len() - 1` is only evaluated on a non-empty
vector; the nested conditional mirrors that order. -/
def right_button_on_click (data : FolderGalleryState) : FolderGalleryState :=
  if data.paths.isEmpty then
    data
  else if data.selected_image == data.paths.length - 1 then
    data
  else
    { data with selected_image := data.selected_image + 1 }

/-! ## Scanner invariants -/

/-- Index alignment of a thumbnail vector: the element at position `i`
carries `index = i`. -/
def Aligned (thumbs : List Thumbnail) : Prop :=
  ∀ i (hi : i < thumbs.length), (thumbs.get ⟨i, hi⟩).index = i

/-- The property the scanner guarantees of every folder whose submission
succeeded: parallel arrays of equal length, dense index-aligned thumbnails,
and at least one thumbnail. -/
def GoodFolder (f : ImageFolder) : Prop :=
  f.paths.length = f.thumbnails.length ∧ Aligned f.thumbnails ∧
    f.thumbnails ≠ []

/-- Whether decoding an entry hits one of the three `continue` branches of
`read_directory` (failed open, failed format sniff, failed decode). -/
def decodeFails : DecodeOutcome → Bool
  | .openErr _ => true
  | .formatErr _ => true
  | .decodeErr _ => true
  | .ok _ _ => false

/-! ## Helper lemmas -/

lemma aligned_nil : Aligned [] := by
  intro i hi
  simp at hi

lemma aligned_push (imgs : List Thumbnail) (t : Thumbnail)
    (ht : t.index = imgs.length) (h : Aligned imgs) :
    Aligned (imgs ++ [t]) := by
  intro i hi
  rcases Nat.lt_or_ge i imgs.length with hlt | hge
  · have hget : (imgs ++ [t]).get ⟨i, hi⟩ = imgs.get ⟨i, hlt⟩ := by
      simp [List.get_eq_getElem, List.getElem_append_left, hlt]
    rw [hget]
    exact h i hlt
  · have hlen : i < imgs.length + 1 := by
      simpa using hi
    have hieq : i = imgs.length := by omega
    subst hieq
    have hget : (imgs ++ [t]).get ⟨imgs.length, hi⟩ = t := by
      simp [List.get_eq_getElem]
    rw [hget, ht]

/-- The `read_directory` loop keeps the two accumulators the same length and
the thumbnail indices dense: failed files reserve no index. -/
lemma readDirLoop_aligned (files : List (Except String FileEntry)) :
    ∀ images paths result,
      readDirLoop files images paths = some result →
      paths.length = images.length → Aligned images →
      result.2.length = result.1.length ∧ Aligned result.1 := by
  induction files with
  | nil =>
    intro images paths result hrun hlen halign
    simp only [readDirLoop, Option.some.injEq] at hrun
    rw [← hrun]
    exact ⟨hlen, halign⟩
  | cons e rest ih =>
    intro images paths result hrun hlen halign
    cases e with
    | error m => simp [readDirLoop] at hrun
    | ok file =>
      cases hf : file.isFile with
      | false =>
        simp only [readDirLoop, hf, Bool.false_eq_true, if_false] at hrun
        exact ih images paths result hrun hlen halign
      | true =>
        cases ho : file.outcome with
        | openErr m =>
          simp only [readDirLoop, hf, if_true, ho] at hrun
          exact ih images paths result hrun hlen halign
        | formatErr m =>
          simp only [readDirLoop, hf, if_true, ho] at hrun
          exact ih images paths result hrun hlen halign
        | decodeErr m =>
          simp only [readDirLoop, hf, if_true, ho] at hrun
          exact ih images paths result hrun hlen halign
        | ok w h =>
          simp only [readDirLoop, hf, if_true, ho] at hrun
          refine ih _ _ result hrun ?_ ?_
          · simp [hlen]
          · exact aligned_push images (create_thumbnail images.length w h) rfl halign

lemma readDirLoop_aligned_of_read (d : DirSnapshot)
    (thumbs : List Thumbnail) (paths : List String)
    (h : read_directory d = some (thumbs, paths)) :
    paths.length = thumbs.length ∧ Aligned thumbs := by
  unfold read_directory at h
  cases hres : d.readDirResult with
  | error m =>
    rw [hres] at h
    simp at h
  | ok fileEntries =>
    rw [hres] at h
    exact readDirLoop_aligned fileEntries [] [] (thumbs, paths) h rfl aligned_nil

/-- Every folder in the delivered list of a worker run is good, provided the
folders already delivered at loop entry are. -/
lemma workerLoop_good (alive : Bool)
    (entries : List (Except String DirSnapshot)) :
    ∀ delivered, (∀ f ∈ delivered, GoodFolder f) →
      ∀ f ∈ (workerLoop alive entries delivered).1, GoodFolder f := by
  induction entries with
  | nil =>
    intro delivered hdel f hf
    simp only [workerLoop] at hf
    exact hdel f hf
  | cons e rest ih =>
    intro delivered hdel f hf
    cases e with
    | error m =>
      simp only [workerLoop] at hf
      exact hdel f hf
    | ok d =>
      rcases hread : read_directory d with _ | ⟨thumbs, paths⟩
      · simp only [workerLoop, hread] at hf
        exact hdel f hf
      · cases hemp : thumbs.isEmpty with
        | true =>
          simp only [workerLoop, hread, hemp, if_true] at hf
          exact ih delivered hdel f hf
        | false =>
          cases alive with
          | false =>
            simp only [workerLoop, hread, hemp, Bool.false_eq_true, if_false,
              submit_command] at hf
            exact hdel f hf
          | true =>
            simp only [workerLoop, hread, hemp, Bool.false_eq_true, if_false,
              submit_command, if_true] at hf
            refine ih _ ?_ f hf
            intro g hg
            rcases List.mem_append.mp hg with hgold | hgnew
            · exact hdel g hgold
            · have hgeq : g = ImageFolder.mk paths thumbs d.path none := by
                simpa using hgnew
              subst hgeq
              have halign := readDirLoop_aligned_of_read d thumbs paths hread
              refine ⟨halign.1, halign.2, ?_⟩
              simpa [List.isEmpty_iff] using hemp

/-- Dropping one failing file from a directory listing does not change the
`read_directory` loop's result: the file contributes nothing and all
remaining files are still processed identically. -/
lemma readDirLoop_skip (file : FileEntry)
    (post : List (Except String FileEntry))
    (hfile : file.isFile = true) (hfail : decodeFails file.outcome = true) :
    ∀ pre images paths,
      readDirLoop (pre ++ Except.ok file :: post) images paths =
        readDirLoop (pre ++ post) images paths := by
  intro pre
  induction pre with
  | nil =>
    intro images paths
    cases ho : file.outcome with
    | openErr m => simp [readDirLoop, hfile, ho]
    | formatErr m => simp [readDirLoop, hfile, ho]
    | decodeErr m => simp [readDirLoop, hfile, ho]
    | ok w h =>
      rw [ho] at hfail
      simp [decodeFails] at hfail
  | cons e pre ih =>
    intro images paths
    cases e with
    | error m => simp [readDirLoop]
    | ok f2 =>
      cases hf2 : f2.isFile with
      | false =>
        simp only [List.cons_append, readDirLoop, hf2, Bool.false_eq_true,
          if_false]
        exact ih images paths
      | true =>
        cases ho2 : f2.outcome with
        | openErr m =>
          simp only [List.cons_append, readDirLoop, hf2, if_true, ho2]
          exact ih images paths
        | formatErr m =>
          simp only [List.cons_append, readDirLoop, hf2, if_true, ho2]
          exact ih images paths
        | decodeErr m =>
          simp only [List.cons_append, readDirLoop, hf2, if_true, ho2]
          exact ih images paths
        | ok w h =>
          simp only [List.cons_append, readDirLoop, hf2, if_true, ho2]
          exact ih _ _

/-! ## Theorems -/

/-- C3: for every decoded image with `0 < h` (and any `w`), `create_thumbnail`
computes the output width as `trunc(w * (150 / h))` — which over exact
arithmetic equals the truncating natural division `w * 150 / h` — and the
output height as `trunc(h * (150 / h)) = 150`; the computation is a pure
function of the dimensions, hence deterministic.  In particular a 400×300
source yields exactly 200×150 (see the witness). -/
theorem create_thumbnail_dims (i w h : Nat) (hh : 0 < h) :
    (create_thumbnail i w h).width = w * 150 / h ∧
    (create_thumbnail i w h).height = 150 := by
  have hq : (h : ℚ) ≠ 0 := Nat.cast_ne_zero.mpr (Nat.pos_iff_ne_zero.mp hh)
  constructor
  · show (⌊(w : ℚ) * ((150 : ℚ) / (h : ℚ))⌋).toNat = w * 150 / h
    have harg : (w : ℚ) * ((150 : ℚ) / (h : ℚ)) =
        ((w * 150 : ℕ) : ℚ) / ((h : ℕ) : ℚ) := by
      push_cast
      ring
    rw [harg, Int.floor_toNat, Nat.floor_div_eq_div]
  · show (⌊(h : ℚ) * ((150 : ℚ) / (h : ℚ))⌋).toNat = 150
    have harg : (h : ℚ) * ((150 : ℚ) / (h : ℚ)) = (150 : ℚ) := by
      field_simp
    rw [harg]
    simp

/-- Witness for C3 at the claim's own example: a 400×300 source satisfies the
hypothesis `0 < 300`, and the theorem yields width `400 * 150 / 300 = 200`
and height `150`. -/
theorem create_thumbnail_dims_witness :
    0 < 300 ∧ 400 * 150 / 300 = 200 ∧
    ((create_thumbnail 0 400 300).width = 400 * 150 / 300 ∧
      (create_thumbnail 0 400 300).height = 150) :=
  ⟨by decide, by decide, create_thumbnail_dims 0 400 300 (by decide)⟩

/-- C4: evaluation of the code at the claim's own example input.  For a
decoded 1×300 source, `create_thumbnail` truncates the scaled width
`1 * (150/300) = 0.5` to `0` and performs no clamping: the resulting buffer
is 0×150, not at least 1×1 as the claim states. -/
theorem create_thumbnail_degenerate_width :
    (create_thumbnail 0 1 300).width = 0 ∧
    (create_thumbnail 0 1 300).height = 150 ∧
    ¬ 1 ≤ (create_thumbnail 0 1 300).width := by
  refine ⟨?_, ?_, ?_⟩
  · norm_num [create_thumbnail]
  · norm_num [create_thumbnail]
    simp
  · norm_num [create_thumbnail]

/-- C8: on any `FolderGalleryState` with non-empty `paths` and
`selected_image < paths.len()`, both arrow handlers yield a state that still
satisfies `selected_image < paths.len()` (the lower bound `0 ≤` is inherent
in the `Nat` index). -/
theorem navigation_preserves_selection_bounds (s : FolderGalleryState)
    (hne : s.paths ≠ []) (hsel : s.selected_image < s.paths.length) :
    (left_button_on_click s).selected_image <
      (left_button_on_click s).paths.length ∧
    (right_button_on_click s).selected_image <
      (right_button_on_click s).paths.length := by
  have hemp : s.paths.isEmpty = false := by
    simp [List.isEmpty_iff, hne]
  constructor
  · unfold left_button_on_click
    rw [hemp]
    by_cases h0 : s.selected_image = 0
    · simp [h0]
      omega
    · simp [h0]
      omega
  · unfold right_button_on_click
    rw [hemp]
    by_cases hlast : s.selected_image = s.paths.length - 1
    · simp [hlast]
      omega
    · simp [hlast]
      omega

/-- Witness for C8: the state `{name := "f", paths := ["a", "b", "c"],
selected_image := 1}` satisfies both hypotheses, and both handlers keep the
selection in bounds. -/
theorem navigation_preserves_selection_bounds_witness :
    (FolderGalleryState.mk "f" ["a", "b", "c"] 1).paths ≠ [] ∧
    (FolderGalleryState.mk "f" ["a", "b", "c"] 1).selected_image <
      (FolderGalleryState.mk "f" ["a", "b", "c"] 1).paths.length ∧
    ((left_button_on_click (FolderGalleryState.mk "f" ["a", "b", "c"] 1)).selected_image <
        (left_button_on_click (FolderGalleryState.mk "f" ["a", "b", "c"] 1)).paths.length ∧
      (right_button_on_click (FolderGalleryState.mk "f" ["a", "b", "c"] 1)).selected_image <
        (right_button_on_click (FolderGalleryState.mk "f" ["a", "b", "c"] 1)).paths.length) :=
  ⟨by decide, by decide,
    navigation_preserves_selection_bounds (FolderGalleryState.mk "f" ["a", "b", "c"] 1)
      (by decide) (by decide)⟩

/-- C9: clamping is idempotent at both boundaries — on non-empty `paths`,
any number of left-arrow clicks starting at selection 0 leaves the selection
at 0, and any number of right-arrow clicks starting at `paths.len() - 1`
leaves it at `paths.len() - 1` (no wrap, no error). -/
theorem arrow_clamping_idempotent (s : FolderGalleryState) (n : Nat)
    (_hne : s.paths ≠ []) :
    (s.selected_image = 0 →
      (left_button_on_click^[n] s).selected_image = 0) ∧
    (s.selected_image = s.paths.length - 1 →
      (right_button_on_click^[n] s).selected_image = s.paths.length - 1) := by
  constructor
  · intro h0
    have hfix : left_button_on_click s = s := by
      simp [left_button_on_click, h0]
    rw [Function.iterate_fixed hfix]
    exact h0
  · intro hlast
    have hfix : right_button_on_click s = s := by
      simp [right_button_on_click, hlast]
    rw [Function.iterate_fixed hfix]
    exact hlast

/-- Witness for C9: from `{name := "f", paths := ["a", "b"],
selected_image := 0}`, five left-arrow clicks leave the selection at 0. -/
theorem arrow_clamping_idempotent_witness :
    (FolderGalleryState.mk "f" ["a", "b"] 0).paths ≠ [] ∧
    (left_button_on_click^[5] (FolderGalleryState.mk "f" ["a", "b"] 0)).selected_image = 0 :=
  ⟨by decide,
    (arrow_clamping_idempotent (FolderGalleryState.mk "f" ["a", "b"] 0) 5
        (by decide)).1 rfl⟩

/-- C10: on a state whose `paths` is empty, both arrow handlers return the
state completely unchanged (each guard's first disjunct fires; in the Rust
source `||` short-circuits, so the right handler's `paths.len() - 1` is
never evaluated on an empty vector and the `usize` subtraction cannot
underflow — the nested conditional in `right_button_on_click` mirrors that
evaluation order). -/
theorem empty_folder_arrows_noop (s : FolderGalleryState)
    (hemp : s.paths = []) :
    left_button_on_click s = s ∧ right_button_on_click s = s := by
  constructor
  · simp [left_button_on_click, hemp]
  · simp [right_button_on_click, hemp]

/-- Witness for C10: a concrete empty-paths state (even with a stale
`selected_image = 3`) is left unchanged by both handlers. -/
theorem empty_folder_arrows_noop_witness :
    (FolderGalleryState.mk "f" [] 3).paths = [] ∧
    (left_button_on_click (FolderGalleryState.mk "f" [] 3) =
        FolderGalleryState.mk "f" [] 3 ∧
      right_button_on_click (FolderGalleryState.mk "f" [] 3) =
        FolderGalleryState.mk "f" [] 3) :=
  ⟨rfl, empty_folder_arrows_noop (FolderGalleryState.mk "f" [] 3) rfl⟩
/-- C1: every ImageFolder the scanner worker gets delivered has
`paths.len() == thumbnails.len()`, and the thumbnail at position `i`
carries `index = i` — the arrays are dense and index-aligned, with no
indices reserved for files that failed to decode. -/
theorem delivered_folder_alignment (alive : Bool)
    (entries : List (Except String DirSnapshot)) (folder : ImageFolder)
    (hmem : folder ∈ (workerLoop alive entries []).1) :
    folder.paths.length = folder.thumbnails.length ∧
    ∀ i (hi : i < folder.thumbnails.length),
      (folder.thumbnails.get ⟨i, hi⟩).index = i := by
  have hgood := workerLoop_good alive entries []
    (by intro f hf; simp at hf) folder hmem
  exact ⟨hgood.1, hgood.2.1⟩

/-- Witness for C1: a worker run over one directory containing a 400×300
image, a corrupt file, and a 300×150 image delivers exactly one folder with
two aligned entries (the corrupt file reserves no index). -/
theorem delivered_folder_alignment_witness :
    ImageFolder.mk ["/a/x.png", "/a/y.png"]
        [create_thumbnail 0 400 300, create_thumbnail 1 300 150] "/a" none ∈
      (workerLoop true
        [Except.ok (DirSnapshot.mk "/a" (Except.ok
          [Except.ok (FileEntry.mk "/a/x.png" true (DecodeOutcome.ok 400 300)),
           Except.ok (FileEntry.mk "/a/corrupt.png" true
             (DecodeOutcome.decodeErr "corrupt")),
           Except.ok (FileEntry.mk "/a/y.png" true
             (DecodeOutcome.ok 300 150))]))] []).1 ∧
    ((ImageFolder.mk ["/a/x.png", "/a/y.png"]
        [create_thumbnail 0 400 300, create_thumbnail 1 300 150]
        "/a" none).paths.length =
      (ImageFolder.mk ["/a/x.png", "/a/y.png"]
        [create_thumbnail 0 400 300, create_thumbnail 1 300 150]
        "/a" none).thumbnails.length ∧
    ∀ i (hi : i < (ImageFolder.mk ["/a/x.png", "/a/y.png"]
        [create_thumbnail 0 400 300, create_thumbnail 1 300 150]
        "/a" none).thumbnails.length),
      ((ImageFolder.mk ["/a/x.png", "/a/y.png"]
        [create_thumbnail 0 400 300, create_thumbnail 1 300 150]
        "/a" none).thumbnails.get ⟨i, hi⟩).index = i) :=
  ⟨List.mem_singleton_self _,
    delivered_folder_alignment true
      [Except.ok (DirSnapshot.mk "/a" (Except.ok
        [Except.ok (FileEntry.mk "/a/x.png" true (DecodeOutcome.ok 400 300)),
         Except.ok (FileEntry.mk "/a/corrupt.png" true
           (DecodeOutcome.decodeErr "corrupt")),
         Except.ok (FileEntry.mk "/a/y.png" true
           (DecodeOutcome.ok 300 150))]))]
      (ImageFolder.mk ["/a/x.png", "/a/y.png"]
        [create_thumbnail 0 400 300, create_thumbnail 1 300 150] "/a" none)
      (List.mem_singleton_self _)⟩

/-- C2: no delivered ImageFolder has an empty thumbnails sequence: a
directory yielding zero successfully decoded images is filtered by the
`!thumbnails.is_empty()` guard and produces no record at all. -/
theorem delivered_folder_nonempty (alive : Bool)
    (entries : List (Except String DirSnapshot)) (folder : ImageFolder)
    (hmem : folder ∈ (workerLoop alive entries []).1) :
    folder.thumbnails ≠ [] := by
  have hgood := workerLoop_good alive entries []
    (by intro f hf; simp at hf) folder hmem
  exact hgood.2.2

/-- Witness for C2: a run over a directory with one decodable image and a
directory with only failing files delivers exactly one folder, whose
thumbnail list is non-empty. -/
theorem delivered_folder_nonempty_witness :
    ImageFolder.mk ["/b/z.png"] [create_thumbnail 0 600 300] "/b" none ∈
      (workerLoop true
        [Except.ok (DirSnapshot.mk "/empty" (Except.ok
          [Except.ok (FileEntry.mk "/empty/bad.txt" true
            (DecodeOutcome.formatErr "unrecognized"))])),
         Except.ok (DirSnapshot.mk "/b" (Except.ok
          [Except.ok (FileEntry.mk "/b/z.png" true
            (DecodeOutcome.ok 600 300))]))] []).1 ∧
    (ImageFolder.mk ["/b/z.png"] [create_thumbnail 0 600 300]
        "/b" none).thumbnails ≠ [] :=
  ⟨List.mem_singleton_self _,
    delivered_folder_nonempty true
      [Except.ok (DirSnapshot.mk "/empty" (Except.ok
        [Except.ok (FileEntry.mk "/empty/bad.txt" true
          (DecodeOutcome.formatErr "unrecognized"))])),
       Except.ok (DirSnapshot.mk "/b" (Except.ok
        [Except.ok (FileEntry.mk "/b/z.png" true
          (DecodeOutcome.ok 600 300))]))]
      (ImageFolder.mk ["/b/z.png"] [create_thumbnail 0 600 300] "/b" none)
      (List.mem_singleton_self _)⟩

/-- C5: evaluation of the code at the failing situation.  Once the
presentation context has terminated, `submit_command` is a failure, and the
worker's `.unwrap()` on it (view.rs line 132) panics: a run that has a
record to submit aborts (completion flag `false`) with nothing delivered,
instead of treating the submission as a silent no-op. -/
theorem submit_after_teardown_panics :
    submit_command false
        (ImageFolder.mk ["/a/x.png"] [create_thumbnail 0 400 300] "/a" none) =
      Except.error "presentation context terminated" ∧
    workerLoop false
        [Except.ok (DirSnapshot.mk "/a" (Except.ok
          [Except.ok (FileEntry.mk "/a/x.png" true
            (DecodeOutcome.ok 400 300))]))] [] =
      ([], false) :=
  ⟨rfl, rfl⟩

/-- C6: evaluation of the code at the failing situation.  A directory whose
`read_dir` fails at filter time is excluded by the `filter_entry` closure
(first conjunct: recovered locally), but a walk error surfacing in the
iterator — e.g. a directory that disappeared between the filter probe and
the visit — hits `entry.unwrap()` (view.rs line 117) and aborts the whole
scan: the directory after the error is never processed and the completion
flag is `false`, contradicting "never aborting the whole scan". -/
theorem scan_aborts_on_walk_error :
    filter_entry true (Except.error "permission denied") = false ∧
    workerLoop true
        [Except.ok (DirSnapshot.mk "/a" (Except.ok
           [Except.ok (FileEntry.mk "/a/x.png" true
             (DecodeOutcome.ok 400 300))])),
         Except.error "directory disappeared mid-walk",
         Except.ok (DirSnapshot.mk "/b" (Except.ok
           [Except.ok (FileEntry.mk "/b/y.png" true
             (DecodeOutcome.ok 300 150))]))] [] =
      ([ImageFolder.mk ["/a/x.png"] [create_thumbnail 0 400 300] "/a" none],
        false) :=
  ⟨rfl, rfl⟩

/-- C7: a file in a scanned directory that is unreadable, of unrecognized
format, or corrupt is alone skipped — removing it from the listing leaves
`read_directory`'s result unchanged, so it contributes no path and no
thumbnail while every remaining file of the directory is still processed. -/
theorem failing_file_skipped (dirPath : String) (file : FileEntry)
    (pre post : List (Except String FileEntry))
    (hfile : file.isFile = true) (hfail : decodeFails file.outcome = true) :
    read_directory
        (DirSnapshot.mk dirPath (Except.ok (pre ++ Except.ok file :: post))) =
      read_directory (DirSnapshot.mk dirPath (Except.ok (pre ++ post))) := by
  unfold read_directory
  exact readDirLoop_skip file post hfile hfail pre [] []

/-- Witness for C7: dropping a corrupt file sitting between two good files
leaves the directory's record unchanged. -/
theorem failing_file_skipped_witness :
    (FileEntry.mk "/a/corrupt.png" true
        (DecodeOutcome.decodeErr "corrupt")).isFile = true ∧
    decodeFails (FileEntry.mk "/a/corrupt.png" true
        (DecodeOutcome.decodeErr "corrupt")).outcome = true ∧
    read_directory (DirSnapshot.mk "/a" (Except.ok
        ([Except.ok (FileEntry.mk "/a/x.png" true (DecodeOutcome.ok 400 300))] ++
          Except.ok (FileEntry.mk "/a/corrupt.png" true
            (DecodeOutcome.decodeErr "corrupt")) ::
          [Except.ok (FileEntry.mk "/a/y.png" true
            (DecodeOutcome.ok 300 150))]))) =
      read_directory (DirSnapshot.mk "/a" (Except.ok
        ([Except.ok (FileEntry.mk "/a/x.png" true (DecodeOutcome.ok 400 300))] ++
          [Except.ok (FileEntry.mk "/a/y.png" true
            (DecodeOutcome.ok 300 150))]))) :=
  ⟨rfl, rfl,
    failing_file_skipped "/a"
      (FileEntry.mk "/a/corrupt.png" true (DecodeOutcome.decodeErr "corrupt"))
      [Except.ok (FileEntry.mk "/a/x.png" true (DecodeOutcome.ok 400 300))]
      [Except.ok (FileEntry.mk "/a/y.png" true (DecodeOutcome.ok 300 150))]
      rfl rfl⟩
